import Mathlib

/-!
Verification development for the SkyDrive cloud-container backend
(`src/allmydata/storage/backends/cloud/skydrive/skydrive_container.py`).

The module is embedded shallowly:

* the object-name escaping (`encode_object_name` / `decode_object_name`)
  is modelled over `List Char` (Python byte strings);
* `DeferredCache` is modelled as a state machine whose events mirror the
  Python methods (`register_deferred`, `refresh`, `clear`, `_activate`);
  Twisted deferreds are instrumented by integer waiter ids and an explicit
  producer-invocation counter;
* `SkyDriveContainer` is modelled as explicit state passing over an
  adapter state and a remote-client state.  The remote client
  (`txskydrive`) is an external collaborator; it is modelled from the
  spec's operation contract (section 6 of the spec) as a small
  concrete cloud with an operation log.

Execution is single-task cooperative (Twisted reactor): within one
container operation every remote call completes before the next callback
runs, so deferred-callback chains are embedded as sequential `Except`
plumbing.
-/

namespace PubCloud

/-! ## Object-name encoding (source lines 84-90)

`encode_object_name(name)` is `name.replace('_', '__').replace('/', '_')`;
both patterns are single characters, so each `replace` is a
character-by-character rewrite.  `decode_object_name` splits the encoded
name on `'__'` (Python `str.split`: leftmost, non-overlapping), replaces
`'_'` by `'/'` inside every chunk, and joins the chunks back with `'__'`.
The `unicode` re-encoding branch of the source is a byte/char identity
here. -/

/-- `name.replace('_', '__')`: every underscore is doubled. -/
def replUnderscoreDouble : List Char → List Char
  | [] => []
  | c :: cs =>
      if c = '_' then '_' :: '_' :: replUnderscoreDouble cs
      else c :: replUnderscoreDouble cs

/-- `name.replace('/', '_')`: every slash becomes an underscore. -/
def replSlashUnderscore (s : List Char) : List Char :=
  s.map (fun c => if c = '/' then '_' else c)

/-- `encode_object_name` from the source. -/
def encode_object_name (s : List Char) : List Char :=
  replSlashUnderscore (replUnderscoreDouble s)

/-- Python `str.split('__')`: cut at every leftmost non-overlapping
occurrence of two consecutive underscores.  `acc` is the chunk being
accumulated. -/
def splitDoubleUnderscore (acc : List Char) : List Char → List (List Char)
  | [] => [acc]
  | [c] => [acc ++ [c]]
  | c1 :: c2 :: rest =>
      if c1 = '_' ∧ c2 = '_' then acc :: splitDoubleUnderscore [] rest
      else splitDoubleUnderscore (acc ++ [c1]) (c2 :: rest)

/-- `c.replace('_', '/')` applied to one chunk. -/
def chunkUnderscoreToSlash (c : List Char) : List Char :=
  c.map (fun ch => if ch = '_' then '/' else ch)

/-- Python `'__'.join(chunks)`. -/
def joinDoubleUnderscore : List (List Char) → List Char
  | [] => []
  | [c] => c
  | c :: cs => c ++ '_' :: '_' :: joinDoubleUnderscore cs

/-- `decode_object_name` from the source:
`'__'.join(c.replace('_', '/') for c in name_enc.split('__'))`. -/
def decode_object_name (e : List Char) : List Char :=
  joinDoubleUnderscore ((splitDoubleUnderscore [] e).map chunkUnderscoreToSlash)

/-- String-level wrapper used by the container embedding. -/
def encodeName (s : String) : String :=
  ⟨encode_object_name s.data⟩

/-- String-level wrapper used by the container embedding. -/
def decodeName (s : String) : String :=
  ⟨decode_object_name s.data⟩

/-- `true` iff the string has two adjacent occurrences of `a`. -/
def hasAdjPair (a : Char) : List Char → Bool
  | c1 :: c2 :: rest => (c1 = a && c2 = a) || hasAdjPair a (c2 :: rest)
  | _ => false

/-! ### Character-level string helpers

Char-level implementations of the Python string primitives the module
relies on (`startswith`, `split('/')`, emptiness), kept structurally
recursive so that concrete runs reduce inside the kernel. -/

/-- Python `s.startswith(p)`. -/
def charsStartWith : List Char → List Char → Bool
  | _, [] => true
  | [], _ :: _ => false
  | c :: cs, q :: qs => c = q && charsStartWith cs qs

/-- Python `s.startswith(p)` on `String`. -/
def pyStartsWith (s q : String) : Bool :=
  charsStartWith s.data q.data

/-- Helper for `splitSlash`: `acc` is the reversed current segment. -/
def splitSlashAux (acc : List Char) : List Char → List (List Char)
  | [] => [acc.reverse]
  | c :: rest =>
      if c = '/' then acc.reverse :: splitSlashAux [] rest
      else splitSlashAux (c :: acc) rest

/-- Python `path.split('/')`. -/
def splitSlash (s : String) : List String :=
  (splitSlashAux [] s.data).map (fun l => ⟨l⟩)

/-- Python falsiness of a string: `""` is falsy. -/
def strIsEmpty (s : String) : Bool :=
  s.data.isEmpty

/-! ## DeferredCache (source lines 93-142)

State machine for the `DeferredCache` class.  Waiter deferreds are
identified by integer ids (Python `register_deferred` creates a fresh
`defer.Deferred()` per call, so the `listeners` set never aliases).
`deferred` records whether a producer call is in flight
(`self.deferred is not None`); `cache_clear_timer` records whether an
auto-expiry timer is pending.  `producer_calls` instruments how many
times the registered update callback has been invoked (each `refresh`
that is not short-circuited by an in-flight deferred invokes it once). -/

structure DeferredCache (α : Type) where
  /-- `cache_ttl` from `__init__`: `none` is Python `None`. -/
  cache_ttl : Option Nat
  /-- `self.cache`; `none` is the `_empty` sentinel. -/
  cache : Option α := none
  /-- whether `self.cache_clear_timer` is an active timer. -/
  cache_clear_timer : Bool := false
  /-- whether `self.deferred` is a pending producer deferred. -/
  deferred : Bool := false
  /-- pending waiter deferreds, newest first. -/
  listeners : List Nat := []
  /-- instrumentation: number of producer (update-callback) invocations. -/
  producer_calls : Nat := 0
deriving DecidableEq, Repr

namespace DeferredCache

variable {α β : Type}

/-- The state right after `DeferredCache.__init__(cache_ttl)`. -/
def init (ttl : Option Nat) : DeferredCache α :=
  { cache_ttl := ttl }

/-- `clear`: drop the cached value, cancel any pending expiry timer. -/
def clear (s : DeferredCache α) : DeferredCache α :=
  { s with cache := none, cache_clear_timer := false }

/-- `refresh`: no-op while a producer deferred is already in flight;
otherwise `clear` and invoke the producer (counted; its completion is a
separate `activate` event). -/
def refresh (s : DeferredCache α) : DeferredCache α :=
  if s.deferred then s
  else
    let s1 := s.clear
    { s1 with deferred := true, producer_calls := s1.producer_calls + 1 }

/-- `register_deferred()` (the `d=None` form used by the container):
return the cached value immediately when populated; otherwise make sure
a refresh is in flight and enqueue a fresh waiter deferred `id`.  The
second component is the immediately delivered value, if any. -/
def register_deferred (s : DeferredCache α) (id : Nat) :
    DeferredCache α × Option α :=
  match s.cache with
  | some v => (s, some v)
  | none =>
      let s1 := if s.deferred then s else s.refresh
      ({ s1 with listeners := id :: s1.listeners }, none)

/-- `_activate(res)`: the producer deferred completed with `res`
(`Except.error` is a Twisted `Failure`).  Every pending listener is fired
with `res` and the listener set is drained; a non-failure result is
retained iff `cache_ttl is not None`, with an auto-expiry timer iff
`cache_ttl > 0`.  Returns the new state and the deliveries made. -/
def activate (s : DeferredCache α) (res : Except β α) :
    DeferredCache α × List (Nat × Except β α) :=
  let deliveries := s.listeners.map (fun id => (id, res))
  let s1 := { s with deferred := false, listeners := [] }
  match res with
  | .error _ => (s1, deliveries)
  | .ok v =>
      match s.cache_ttl with
      | none => (s1, deliveries)
      | some t =>
          if 0 < t then
            ({ s1 with cache := some v, cache_clear_timer := true }, deliveries)
          else
            ({ s1 with cache := some v }, deliveries)

/-- The pending auto-expiry timer fires: `reactor.callLater(ttl, self.clear)`. -/
def timerFires (s : DeferredCache α) : DeferredCache α :=
  if s.cache_clear_timer then s.clear else s

/-- `n` consecutive `register_deferred` calls with waiter ids
`0, 1, …, n-1`, none of which is answered in between. -/
def registerMany (s : DeferredCache α) : Nat → DeferredCache α
  | 0 => s
  | n + 1 => ((registerMany s n).register_deferred n).1

end DeferredCache

/-! ## Remote client (external collaborator)

Modelled from the spec: the `txskydrive` client is excluded from the
repository and consumed through the operation contract of spec section 6
(`resolve_path`, `mkdir`, `listdir`, `put`, `get`, `info`, `delete`;
protocol errors carry an HTTP-like status code, `resolve_path` fails
with `DoesNotExists(parent_id, remaining_segments)`).  The model is a
concrete cloud: a folder tree of edges, per-folder file listings, blob
contents, and a call log for instrumentation.  `putFails` injects a
"gone" protocol failure on every `put`, which the contract permits for
any call. -/

/-- A remote `info` map: the fields the container reads. -/
structure FileInfo where
  id : Nat
  name : String
  updated_time : String
  size : Nat
deriving DecidableEq, Repr

/-- Failure classification of a remote call or callback, as the
container distinguishes them: `txskydrive.ProtocolError` (HTTP-like
code), `cloud_common.CloudError` (code in `args[1]`),
`txskydrive.DoesNotExists` from `resolve_path`, and the Python
exceptions the module itself can raise (`KeyError` from a `chunk_idmap`
miss, `TypeError` from subscripting `None`, `IndexError` from
`slugs[0]`). -/
inductive CErr where
  | protocolError (code : Nat)
  | cloudError (code : Nat)
  | doesNotExists (parentId : Nat) (slugs : List String)
  | keyError
  | typeError
  | indexError
deriving DecidableEq, Repr

/-- One logged remote-client call. -/
inductive COp where
  | resolve_path (path : String)
  | mkdir (name : String) (parent : Nat)
  | listdir (folder : Option Nat)
  | put (name : String) (folder : Option Nat)
  | get (id : Nat)
  | info (id : Nat)
  | delete (id : Option Nat)
deriving DecidableEq, Repr

/-- Modelled from the spec: remote cloud state behind the client. -/
structure Remote where
  rootId : Nat := 0
  /-- folder tree edges `(parent, name, id)`. -/
  folders : List (Nat × String × Nat) := []
  /-- `(folderId, info)` for every stored object. -/
  files : List (Nat × FileInfo) := []
  /-- object id → content. -/
  blobs : List (Nat × String) := []
  nextId : Nat := 1
  /-- fault injection: every `put` fails with status 410. -/
  putFails : Bool := false
  log : List COp := []
deriving DecidableEq, Repr

namespace Remote

def folderExists (r : Remote) (fid : Nat) : Bool :=
  fid = r.rootId || r.folders.any (fun e => e.2.2 = fid)

def findEdge (r : Remote) (parent : Nat) (name : String) : Option Nat :=
  (r.folders.find? (fun e => e.1 = parent && e.2.1 = name)).map (fun e => e.2.2)

/-- Walk a segment path down the folder tree; on the first missing
segment fail with the deepest existing ancestor and the remaining
segments, as `DoesNotExists(parent_id, slugs)` does. -/
def walkPath (r : Remote) (cur : Nat) : List String → Except CErr Nat
  | [] => .ok cur
  | seg :: rest =>
      match r.findEdge cur seg with
      | some child => walkPath r child rest
      | none => .error (.doesNotExists cur (seg :: rest))

/-- `resolve_path(path) -> info | fails(DoesNotExists(parent_id, slugs))`. -/
def resolve_path (r : Remote) (path : String) : Except CErr FileInfo × Remote :=
  let r1 := { r with log := r.log ++ [COp.resolve_path path] }
  match r.walkPath r.rootId (splitSlash path) with
  | .ok fid => (.ok { id := fid, name := path, updated_time := "", size := 0 }, r1)
  | .error e => (.error e, r1)

/-- `mkdir(name, parent_id) -> info`. -/
def mkdir (r : Remote) (name : String) (parent : Nat) : Except CErr FileInfo × Remote :=
  let r1 := { r with log := r.log ++ [COp.mkdir name parent] }
  let inf : FileInfo := { id := r.nextId, name := name, updated_time := "", size := 0 }
  (.ok inf, { r1 with folders := r1.folders ++ [(parent, name, r.nextId)],
                      nextId := r.nextId + 1 })

/-- `listdir(folder_id, type_filter='file') -> sequence of info maps`;
404 when the folder is gone. -/
def listdir (r : Remote) (fid : Option Nat) : Except CErr (List FileInfo) × Remote :=
  let r1 := { r with log := r.log ++ [COp.listdir fid] }
  match fid with
  | none => (.error (.protocolError 400), r1)
  | some f =>
      if r.folderExists f then
        (.ok ((r.files.filter (fun e => e.1 = f)).map (fun e => e.2)), r1)
      else (.error (.protocolError 404), r1)

/-- `put(encoded_name, data, parent_id) -> info`; 404 when the folder is
gone, 410 under fault injection. -/
def put (r : Remote) (name : String) (data : String) (fid : Option Nat) :
    Except CErr FileInfo × Remote :=
  let r1 := { r with log := r.log ++ [COp.put name fid] }
  if r.putFails then (.error (.protocolError 410), r1)
  else
    match fid with
    | none => (.error (.protocolError 400), r1)
    | some f =>
        if r.folderExists f then
          let fi : FileInfo := { id := r.nextId, name := name, updated_time := "t",
                                 size := data.length }
          (.ok fi,
           { r1 with
               files := r1.files.filter (fun e => !(e.1 = f && e.2.name = name)) ++ [(f, fi)],
               blobs := r1.blobs ++ [(r.nextId, data)],
               nextId := r.nextId + 1 })
        else (.error (.protocolError 404), r1)

/-- `get(id) -> byte stream`; 404 when the object is gone. -/
def get (r : Remote) (oid : Nat) : Except CErr String × Remote :=
  let r1 := { r with log := r.log ++ [COp.get oid] }
  match r.blobs.find? (fun e => e.1 = oid) with
  | some e => (.ok e.2, r1)
  | none => (.error (.protocolError 404), r1)

/-- `info(id) -> info map`; 404 when the object is gone. -/
def info (r : Remote) (oid : Nat) : Except CErr FileInfo × Remote :=
  let r1 := { r with log := r.log ++ [COp.info oid] }
  match r.files.find? (fun e => e.2.id = oid) with
  | some e => (.ok e.2, r1)
  | none => (.error (.protocolError 404), r1)

/-- `delete(id) -> ack` for a folder or an object; 404 when absent. -/
def delete (r : Remote) (oid : Option Nat) : Except CErr Unit × Remote :=
  let r1 := { r with log := r.log ++ [COp.delete oid] }
  match oid with
  | none => (.error (.protocolError 400), r1)
  | some i =>
      if r.folders.any (fun e => e.2.2 = i) then
        (.ok (), { r1 with folders := r1.folders.filter (fun e => !(e.2.2 = i)) })
      else if r.files.any (fun e => e.2.id = i) then
        (.ok (), { r1 with files := r1.files.filter (fun e => !(e.2.id = i)),
                           blobs := r1.blobs.filter (fun e => !(e.1 = i)) })
      else (.error (.protocolError 404), r1)

end Remote

/-! ## SkyDriveItem / SkyDriveListing (source lines 161-187) -/

/-- Modelled from the spec: the content fingerprint is derived by an
external utility (`allmydata.util.hashutil.sha1(...).hexdigest()`); the
hash itself is outside the repository, abstracted by an injective
stand-in. -/
def sha1hex (s : String) : String := s

structure SkyDriveItem where
  key : String
  modification_date : String
  etag : String
  size : Nat
  storage_class : String
  owner : Option Nat
deriving DecidableEq, Repr

/-- `SkyDriveItem.from_info(info, key=key)`: `key or decode_object_name(info['name'])`
(Python `or`: an absent or empty `key` falls back to decoding). -/
def SkyDriveItem.from_info (inf : FileInfo) (key : Option String) : SkyDriveItem :=
  let k := match key with
    | some k => if strIsEmpty k then decodeName inf.name else k
    | none => decodeName inf.name
  { key := k
    modification_date := inf.updated_time
    etag := sha1hex (String.intercalate "\x00" [toString inf.id, inf.name, inf.updated_time])
    size := inf.size
    storage_class := "STANDARD"
    owner := none }

structure SkyDriveListing where
  name : String
  /-- `prefix` in the source (renamed: reserved word in Lean). -/
  pfx : String
  marker : String
  max_keys : Nat
  is_truncated : String
  contents : List SkyDriveItem
  common_prefixes : Option (List String)
deriving DecidableEq, Repr

/-! ## ChunkIDMap (source lines 145-158)

The dbm-backed persistent name→id map, as an association list.
`clear` reopens the store empty; `__getitem__` raises `KeyError` on a
miss (`Option` here); `__setitem__` upserts. -/

def idmapSet : List (String × Nat) → String → Nat → List (String × Nat)
  | [], k, v => [(k, v)]
  | (k', v') :: rest, k, v =>
      if k' = k then (k, v) :: rest else (k', v') :: idmapSet rest k v

def idmapGet : List (String × Nat) → String → Option Nat
  | [], _ => none
  | (k', v') :: rest, k => if k' = k then some v' else idmapGet rest k

/-! ## SkyDriveContainer (source lines 190-368)

Adapter state.  `folder_id_updates` instruments the
`folder_id_update_handler` callback (the persisted-id update), newest
last.  The listing cache is the `DeferredCache(cache_ttl=120)` of
`_list_cache`; the folder-bootstrap combinator is `DeferredCache()` with
`cache_ttl=None`, which never retains its result (`_activate` skips the
cache assignment for a `None` TTL), so in this single-task embedding
`create()` always runs `create_shares_folder` and the combinator needs
no state of its own. -/

structure SkyDriveContainer where
  /-- `normpath(folder_path).lstrip('/')` from `__init__`. -/
  folder_path : String
  folder_id : Option Nat
  /-- `folder_path or folder_id` from `__init__`. -/
  folder_name : String
  folder_id_updates : List Nat := []
  chunk_idmap : List (String × Nat) := []
  list_cache : DeferredCache (List FileInfo) := DeferredCache.init (some 120)
deriving DecidableEq, Repr

/-- Result of one container operation: the delivered result, the new
adapter state, the new remote state. -/
abbrev ContainerM (γ : Type) := Except CErr γ × SkyDriveContainer × Remote

/-- The `_match_folder_id` callback of `create_shares_folder`: compare the
resolved id with the `folder_id` *parameter* of the enclosing call, fire
`folder_id_update_handler` and update `self.folder_id` when they differ.
The deferred-chain value it receives is `Option FileInfo` because the
callback itself returns Python `None`; subscripting `None` raises
`TypeError`. -/
def matchFolderId (fidParam : Option Nat) (a : SkyDriveContainer)
    (v : Option FileInfo) : Except CErr (SkyDriveContainer × Option FileInfo) :=
  match v with
  | none => .error .typeError
  | some inf =>
      if some inf.id ≠ fidParam then
        .ok ({ a with folder_id := some inf.id,
                      folder_id_updates := a.folder_id_updates ++ [inf.id] }, none)
      else .ok (a, none)

/-- `create_shares_folder(folder_path, folder_id)` (source lines 224-254):
resolve the path, then run the deferred chain
`addCallback(_match_folder_id); addErrback(_clear_idmap);
addErrback(_folder_lookup_error); addCallback(_match_folder_id)`.
On resolve success the first `_match_folder_id` runs (and returns
`None`), both errbacks are skipped, and the second `_match_folder_id`
receives `None`.  On `DoesNotExists(parent_id, slugs)` the idmap is
cleared, the failure is re-raised into `_folder_lookup_error`, which
mkdirs `slugs[0]` under `parent_id` and chains one mkdir per remaining
slug; the second `_match_folder_id` then receives the last mkdir's
info. -/
def create_shares_folder (a : SkyDriveContainer) (r : Remote)
    (folder_path : String) (folder_id : Option Nat) :
    ContainerM (Option FileInfo) :=
  let (res, r1) := r.resolve_path folder_path
  match res with
  | .ok inf =>
      match matchFolderId folder_id a (some inf) with
      | .error e => (.error e, a, r1)
      | .ok (a1, v1) =>
          match matchFolderId folder_id a1 v1 with
          | .error e => (.error e, a1, r1)
          | .ok (a2, v2) => (.ok v2, a2, r1)
  | .error (.doesNotExists parentId slugs) =>
      let a1 := { a with chunk_idmap := [] }
      match slugs with
      | [] => (.error .indexError, a1, r1)
      | s0 :: rest =>
          let first := r1.mkdir s0 parentId
          let last := rest.foldl
            (fun (st : Except CErr FileInfo × Remote) slug =>
              match st.1 with
              | .error _ => st
              | .ok inf => st.2.mkdir slug inf.id)
            first
          match last.1 with
          | .error e2 => (.error e2, a1, last.2)
          | .ok infN =>
              match matchFolderId folder_id a1 (some infN) with
              | .error e2 => (.error e2, a1, last.2)
              | .ok (a2, v2) => (.ok v2, a2, last.2)
  | .error e => (.error e, a, r1)

/-- `create()` = `self._create_combinator.register_deferred()`.  The
combinator caches with `cache_ttl=None`, hence never retains a result,
and no refresh is pending across operations in this single-task
embedding, so every call invokes the producer
`_do_request('create/check folder', _create_folder)` =
`create_shares_folder(self.folder_path, self.folder_id)`.  The retry
mixin `_do_request` (`cloud_common.ContainerRetryMixin`, external to the
repository) is modelled from the spec as a single invocation:
transient-error retry is the remote collaborator's responsibility. -/
def create (a : SkyDriveContainer) (r : Remote) : ContainerM (Option FileInfo) :=
  create_shares_folder a r a.folder_path a.folder_id

/-- `delete()`: delete the folder; on success clear the idmap and the
listing cache (source lines 285-289). -/
def delete (a : SkyDriveContainer) (r : Remote) : ContainerM Unit :=
  let (res, r1) := r.delete a.folder_id
  match res with
  | .error e => (.error e, a, r1)
  | .ok _ => (.ok (), { a with chunk_idmap := [],
                               list_cache := a.list_cache.clear }, r1)

/-- `self._list_cache.register_deferred()`: serve the cached listing if
populated, otherwise refresh — the producer
`self.client.listdir(self.folder_id, type_filter='file')` runs and, the
execution being single-task, completes (`_activate`) before the
operation continues. -/
def listFetch (a : SkyDriveContainer) (r : Remote) :
    ContainerM (List FileInfo) :=
  match a.list_cache.cache with
  | some lst => (.ok lst, a, r)
  | none =>
      let s1 := a.list_cache.refresh
      let (res, r1) := r.listdir a.folder_id
      let s2 := (s1.activate res).1
      (res, { a with list_cache := s2 }, r1)

/-- `404 NOT_FOUND / 410 GONE` classification of `_enoent_handler`
(`failure.trap(ProtocolError, CloudError)`, then the HTTP code check);
any other failure class is re-raised. -/
def isEnoent : CErr → Bool
  | .protocolError c => c = 404 || c = 410
  | .cloudError c => c = 404 || c = 410
  | _ => false

/-- The `create_missing_folders` decorator (source lines 292-314): when
`self.folder_id` is unset, bootstrap first and then run the operation
(no retry in this branch); otherwise run the operation and, on a
not-found/gone failure, clear the listing cache, re-bootstrap via
`create()`, and run the operation once more.  Any other failure — and a
failure of the single retry — propagates. -/
def create_missing_folders {γ : Type}
    (func : SkyDriveContainer → Remote → ContainerM γ)
    (a : SkyDriveContainer) (r : Remote) : ContainerM γ :=
  match a.folder_id with
  | none =>
      let (cres, a1, r1) := create a r
      match cres with
      | .error e => (.error e, a1, r1)
      | .ok _ => func a1 r1
  | some _ =>
      let (res, a1, r1) := func a r
      match res with
      | .ok v => (.ok v, a1, r1)
      | .error e =>
          if isEnoent e then
            let a2 := { a1 with list_cache := a1.list_cache.clear }
            let (cres, a3, r2) := create a2 r1
            match cres with
            | .error e2 => (.error e2, a3, r2)
            | .ok _ => func a3 r2
          else (.error e, a1, r1)

/-- Body of `list_objects(prefix='')` (source lines 317-330): fetch the
(possibly cached) listing, wipe `chunk_idmap`, then for every entry set
`chunk_idmap[decoded key] = id` and keep the entries whose key starts
with the requested p as listing contents. -/
def list_objects_body (p : String) (a : SkyDriveContainer) (r : Remote) :
    ContainerM SkyDriveListing :=
  let (res, a1, r1) := listFetch a r
  match res with
  | .error e => (.error e, a1, r1)
  | .ok lst =>
      let st := lst.foldl
        (fun (st : List (String × Nat) × List SkyDriveItem) inf =>
          let key := decodeName inf.name
          let m := idmapSet st.1 key inf.id
          if pyStartsWith key p then (m, st.2 ++ [SkyDriveItem.from_info inf (some key)])
          else (m, st.2))
        ([], [])
      (.ok { name := a1.folder_name, pfx := "", marker := "", max_keys := 1000,
             is_truncated := "false", contents := st.2, common_prefixes := none },
       { a1 with chunk_idmap := st.1 }, r1)

/-- `list_objects = create_missing_folders(list_objects_body)`. -/
def list_objects (p : String) : SkyDriveContainer → Remote →
    ContainerM SkyDriveListing :=
  create_missing_folders (list_objects_body p)

/-- Body of `put_object` (source lines 332-342): PUT under the encoded
name into `self.folder_id`, record the returned id in `chunk_idmap`,
clear the listing cache. -/
def put_object_body (object_name data : String) (a : SkyDriveContainer)
    (r : Remote) : ContainerM Unit :=
  let (res, r1) := r.put (encodeName object_name) data a.folder_id
  match res with
  | .error e => (.error e, a, r1)
  | .ok inf =>
      (.ok (), { a with chunk_idmap := idmapSet a.chunk_idmap object_name inf.id,
                        list_cache := a.list_cache.clear }, r1)

/-- `put_object = create_missing_folders(put_object_body)`. -/
def put_object (object_name data : String) : SkyDriveContainer → Remote →
    ContainerM Unit :=
  create_missing_folders (put_object_body object_name data)

/-- `resolve_object_name` (source lines 345-351): answer from
`chunk_idmap` when present; otherwise run a full `list_objects()` and
look the name up in the repopulated map, a second miss raising
`KeyError`. -/
def resolve_object_name (object_name : String) (a : SkyDriveContainer)
    (r : Remote) : ContainerM Nat :=
  match idmapGet a.chunk_idmap object_name with
  | some cid => (.ok cid, a, r)
  | none =>
      let (res, a1, r1) := list_objects "" a r
      match res with
      | .error e => (.error e, a1, r1)
      | .ok _ =>
          match idmapGet a1.chunk_idmap object_name with
          | some cid => (.ok cid, a1, r1)
          | none => (.error .keyError, a1, r1)

/-- `get_object` (source lines 353-356): resolve, then GET. -/
def get_object (object_name : String) (a : SkyDriveContainer) (r : Remote) :
    ContainerM String :=
  let (res, a1, r1) := resolve_object_name object_name a r
  match res with
  | .error e => (.error e, a1, r1)
  | .ok cid =>
      let (gres, r2) := r1.get cid
      (gres, a1, r2)

/-- `head_object` (source lines 358-362): resolve, `info`, wrap in a
`SkyDriveItem`. -/
def head_object (object_name : String) (a : SkyDriveContainer) (r : Remote) :
    ContainerM SkyDriveItem :=
  let (res, a1, r1) := resolve_object_name object_name a r
  match res with
  | .error e => (.error e, a1, r1)
  | .ok cid =>
      let (ires, r2) := r1.info cid
      match ires with
      | .error e => (.error e, a1, r2)
      | .ok inf => (.ok (SkyDriveItem.from_info inf none), a1, r2)

/-- `delete_object` (source lines 364-368): resolve, DELETE, clear the
listing cache on success. -/
def delete_object (object_name : String) (a : SkyDriveContainer) (r : Remote) :
    ContainerM Unit :=
  let (res, a1, r1) := resolve_object_name object_name a r
  match res with
  | .error e => (.error e, a1, r1)
  | .ok cid =>
      let (dres, r2) := r1.delete (some cid)
      match dres with
      | .error e => (.error e, a1, r2)
      | .ok _ => (.ok (), { a1 with list_cache := a1.list_cache.clear }, r2)

/-! ## Configuration and construction (source lines 17-80 and 196-218)

`configure_skydrive_container` reads `skydrive.folder_id` and
`skydrive.folder_path` (each a string or Python `None`), rejects "both"
and "neither" with `InvalidValueError`, and otherwise instantiates
`SkyDriveContainer(...)`.  The constructor runs
`normpath(folder_path).lstrip('/')` unconditionally; `os.path.normpath`
(Python stdlib, external) is total on strings but raises on `None`. -/

/-- Python truthiness of an optional config string (`None` and `''` are
falsy). -/
def pyTruthy : Option String → Bool
  | none => false
  | some s => !strIsEmpty s

/-- Python exceptions relevant to construction. -/
inductive PyErr where
  | attributeError
deriving DecidableEq, Repr

/-- Modelled from the spec: `os.path.normpath` is Python stdlib, outside
the repository.  Only what construction depends on is modelled: it
raises on `None` and is total on strings (the slash-collapsing rewrite
itself plays no part in any claim). -/
def normpath : Option String → Except PyErr String
  | none => .error .attributeError
  | some s => .ok s

/-- Python `str.lstrip('/')`. -/
def lstripSlash (s : String) : String :=
  ⟨s.data.dropWhile (fun c => c = '/')⟩

/-- Outcome of the folder-configuration check in
`configure_skydrive_container`. -/
inductive ConfigOutcome where
  /-- `InvalidValueError` raised. -/
  | invalid
  /-- proceed to construction with these `folder_id` / `folder_path`
  arguments and the `folder_id_created` flag. -/
  | proceed (folder_id : Option String) (folder_path : Option String)
      (folder_id_created : Bool)
deriving DecidableEq, Repr

/-- The folder-id/folder-path validation of
`configure_skydrive_container` (source lines 50-59).  When only
`folder_path` is given, the previously persisted private
`skydrive_folder_id` is substituted for `folder_id`. -/
def configure_folder (folder_id folder_path private_folder_id : Option String) :
    ConfigOutcome :=
  if !pyTruthy folder_id && !pyTruthy folder_path then .invalid
  else if pyTruthy folder_id && pyTruthy folder_path then .invalid
  else if !pyTruthy folder_id then .proceed private_folder_id folder_path true
  else .proceed folder_id folder_path false

/-- The folder-related state established by `SkyDriveContainer.__init__`. -/
structure ContainerInit where
  folder_path : String
  folder_id : Option String
  folder_name : Option String
deriving DecidableEq, Repr

/-- The folder-handling part of `SkyDriveContainer.__init__` (source
lines 211-214): `self.folder_path = normpath(folder_path).lstrip('/')`
runs unconditionally, then `self.folder_id = folder_id` and
`self.folder_name = folder_path or folder_id`. -/
def SkyDriveContainer_init (folder_id folder_path : Option String) :
    Except PyErr ContainerInit :=
  match normpath folder_path with
  | .error e => .error e
  | .ok np =>
      .ok { folder_path := lstripSlash np
            folder_id := folder_id
            folder_name := if pyTruthy folder_path then folder_path else folder_id }

/-! ## Log instrumentation helpers -/

def isMkdirOp : COp → Bool
  | .mkdir _ _ => true
  | _ => false

def isPutOp : COp → Bool
  | .put _ _ => true
  | _ => false

def isListdirOp : COp → Bool
  | .listdir _ => true
  | _ => false

/-- The name→id map a fresh repopulation from listing `lst` produces:
start from an empty store and upsert every entry in listing order. -/
def idmapOfListing (lst : List FileInfo) : List (String × Nat) :=
  lst.foldl (fun m inf => idmapSet m (decodeName inf.name) inf.id) []

/-! ## Lemmas on the name encoding -/

theorem replUnderscoreDouble_id (s : List Char) (h : ∀ c ∈ s, c ≠ '_') :
    replUnderscoreDouble s = s := by
  induction s with
  | nil => rfl
  | cons c cs ih =>
      have hc : c ≠ '_' := h c (by simp)
      simp [replUnderscoreDouble, hc, ih (fun x hx => h x (by simp [hx]))]

theorem hasAdjPair_replSlash (s : List Char) (h1 : ∀ c ∈ s, c ≠ '_')
    (h2 : hasAdjPair '/' s = false) :
    hasAdjPair '_' (replSlashUnderscore s) = false := by
  induction s with
  | nil => rfl
  | cons c cs ih =>
      cases cs with
      | nil => rfl
      | cons d ds =>
          have hc : c ≠ '_' := h1 c (by simp)
          have hd : d ≠ '_' := h1 d (by simp)
          simp only [hasAdjPair, replSlashUnderscore, List.map_cons,
            Bool.or_eq_false_iff, Bool.and_eq_false_iff] at h2 ⊢
          constructor
          · by_cases hcs : c = '/' <;> by_cases hds : d = '/' <;>
              simp_all
          · have := ih (fun x hx => h1 x (by simp [List.mem_cons] at hx ⊢; tauto)) h2.2
            simpa [replSlashUnderscore] using this

theorem splitDoubleUnderscore_no_cut :
    ∀ (e : List Char), hasAdjPair '_' e = false →
      ∀ acc, splitDoubleUnderscore acc e = [acc ++ e] := by
  intro e
  induction e with
  | nil => intro _ acc; simp [splitDoubleUnderscore]
  | cons c cs ih =>
      cases cs with
      | nil => intro _ acc; simp [splitDoubleUnderscore]
      | cons d ds =>
          intro h acc
          simp only [hasAdjPair, Bool.or_eq_false_iff, Bool.and_eq_false_iff] at h
          have hnot : ¬(c = '_' ∧ d = '_') := by
            rcases h.1 with h' | h' <;> simp_all
          rw [splitDoubleUnderscore, if_neg hnot, ih h.2 (acc ++ [c])]
          simp

theorem chunk_inverts_replSlash (s : List Char) (h : ∀ c ∈ s, c ≠ '_') :
    chunkUnderscoreToSlash (replSlashUnderscore s) = s := by
  induction s with
  | nil => rfl
  | cons c cs ih =>
      have hc : c ≠ '_' := h c (by simp)
      have ih' := ih (fun x hx => h x (by simp [hx]))
      by_cases hcs : c = '/' <;>
        simp_all [chunkUnderscoreToSlash, replSlashUnderscore]

/-- C1, counterexample: the round trip breaks as soon as the name
contains the escape character — `decode(encode("a_b"))` is `"a__b"`,
because `decode_object_name` rejoins the split chunks with `'__'`
instead of `'_'`; moreover `encode_object_name` is not even injective
(`"a/_b"` and `"a_/b"` both encode to `"a___b"`), so no decoder can
realize the claimed round trip on all names containing `'_'`. -/
theorem encode_decode_escape_counterexample :
    decode_object_name (encode_object_name "a_b".data) = "a__b".data ∧
    decode_object_name (encode_object_name "a_b".data) ≠ "a_b".data ∧
    encode_object_name "a/_b".data = encode_object_name "a_/b".data := by
  refine ⟨by decide, by decide, by decide⟩

/-- C1 (amended): `decode_object_name (encode_object_name name) = name`
for every name with no `'_'` character and no two adjacent `'/'` — that
is, every name built from nonempty printable segments, none containing
the escape character, joined by the path separator.  Names containing
the escape character itself are excluded (see the counterexample). -/
theorem decode_encode_roundtrip (s : List Char)
    (h1 : ∀ c ∈ s, c ≠ '_') (h2 : hasAdjPair '/' s = false) :
    decode_object_name (encode_object_name s) = s := by
  unfold decode_object_name encode_object_name
  rw [replUnderscoreDouble_id s h1,
    splitDoubleUnderscore_no_cut _ (hasAdjPair_replSlash s h1 h2) []]
  simpa [joinDoubleUnderscore] using chunk_inverts_replSlash s h1

/-- Witness for `decode_encode_roundtrip` at the name `"a/b"`. -/
theorem decode_encode_roundtrip_witness :
    (∀ c ∈ "a/b".data, c ≠ '_') ∧ hasAdjPair '/' "a/b".data = false ∧
    decode_object_name (encode_object_name "a/b".data) = "a/b".data :=
  ⟨by decide, by decide, decode_encode_roundtrip "a/b".data (by decide) (by decide)⟩

/-! ## Lemmas on DeferredCache -/

/-- In every branch of `_activate`, the deliveries are the pending
listeners, each fired with the producer's result. -/
theorem DeferredCache.activate_deliveries {α β : Type} (s : DeferredCache α)
    (res : Except β α) :
    (s.activate res).2 = s.listeners.map (fun id => (id, res)) := by
  unfold DeferredCache.activate
  cases res with
  | error e => rfl
  | ok v =>
      cases h : s.cache_ttl with
      | none => rfl
      | some t => by_cases ht : 0 < t <;> simp [ht]

/-- The state after `n ≥ 1` back-to-back `register_deferred` calls on a
fresh cache: exactly one producer invocation, all `n` waiters pending. -/
theorem DeferredCache.registerMany_init {α : Type} (ttl : Option Nat) :
    ∀ n, 1 ≤ n →
      DeferredCache.registerMany (DeferredCache.init (α := α) ttl) n =
        { cache_ttl := ttl, cache := none, cache_clear_timer := false,
          deferred := true, listeners := (List.range n).reverse,
          producer_calls := 1 } := by
  intro n
  induction n with
  | zero => intro h; omega
  | succ n ih =>
      intro _
      by_cases hn : 1 ≤ n
      · rw [DeferredCache.registerMany, ih hn]
        simp [DeferredCache.register_deferred, List.range_succ]
      · have hn0 : n = 0 := by omega
        subst hn0
        rfl

/-- C2: `n ≥ 1` `get()`/`register_deferred()` calls on one empty slot,
all issued before the producer completes, invoke the producer exactly
once; when it completes, every one of the `n` callers is delivered the
identical result `res` (the same value on success, the identical failure
otherwise). -/
theorem deferred_cache_single_flight {α β : Type} (ttl : Option Nat) (n : Nat)
    (h : 1 ≤ n) (res : Except β α) :
    (DeferredCache.registerMany (DeferredCache.init (α := α) ttl) n).producer_calls = 1 ∧
    ((DeferredCache.registerMany (DeferredCache.init (α := α) ttl) n).activate res).2 =
      (List.range n).reverse.map (fun i => (i, res)) ∧
    ∀ d ∈ ((DeferredCache.registerMany (DeferredCache.init (α := α) ttl) n).activate res).2,
      d.2 = res := by
  have hst := DeferredCache.registerMany_init (α := α) ttl n h
  refine ⟨by rw [hst], ?_, ?_⟩
  · rw [hst, DeferredCache.activate_deliveries]
  · intro d hd
    rw [hst, DeferredCache.activate_deliveries] at hd
    obtain ⟨i, _, rfl⟩ := List.mem_map.mp hd
    rfl

/-- Witness for `deferred_cache_single_flight` with three waiters. -/
theorem deferred_cache_single_flight_witness :
    1 ≤ 3 ∧
    (DeferredCache.registerMany (DeferredCache.init (α := Nat) none) 3).producer_calls = 1 :=
  ⟨by decide,
   (deferred_cache_single_flight (β := Unit) none 3 (by decide) (Except.ok 5)).1⟩

/-- C3, counterexample: with TTL `None` a successfully produced value is
*not* cached — after one completed `get()` a second `get()` does not see
a cached value and invokes the producer a second time (`_activate` only
assigns `self.cache` when `cache_ttl is not None`). -/
theorem ttl_none_second_get_refetches :
    ((((DeferredCache.init (α := Nat) none).register_deferred 0).1.activate
        (Except.ok 42 : Except Unit Nat)).1.register_deferred 1).2 = none ∧
    ((((DeferredCache.init (α := Nat) none).register_deferred 0).1.activate
        (Except.ok 42 : Except Unit Nat)).1.register_deferred 1).1.producer_calls = 2 := by
  refine ⟨by decide, by decide⟩

/-- C3 (amended): with TTL `None` the cache never retains anything:
`_activate` of a success leaves the slot empty and sets no expiry timer
(so auto-expiry indeed never occurs), and every later
`get()`/`register_deferred()` on the (invariantly empty) slot invokes
the producer again instead of returning a cached value. -/
theorem ttl_none_never_retains {α β : Type} (s : DeferredCache α) (v : α) (id : Nat)
    (h : s.cache_ttl = none) (hc : s.cache = none) :
    (s.activate (Except.ok v : Except β α)).1.cache = none ∧
    (s.activate (Except.ok v : Except β α)).1.cache_clear_timer = s.cache_clear_timer ∧
    ((s.activate (Except.ok v : Except β α)).1.register_deferred id).2 = none ∧
    ((s.activate (Except.ok v : Except β α)).1.register_deferred id).1.producer_calls =
      s.producer_calls + 1 := by
  simp [DeferredCache.activate, DeferredCache.register_deferred, DeferredCache.refresh,
    DeferredCache.clear, h, hc]

/-- Witness for `ttl_none_never_retains` on a fresh TTL-`None` cache. -/
theorem ttl_none_never_retains_witness :
    (DeferredCache.init (α := Nat) none).cache_ttl = none ∧
    (DeferredCache.init (α := Nat) none).cache = none ∧
    (((DeferredCache.init (α := Nat) none).activate
        (Except.ok 3 : Except Unit Nat)).1.register_deferred 0).2 = none :=
  ⟨rfl, rfl, (ttl_none_never_retains _ 3 0 rfl rfl).2.2.1⟩

/-- C4, counterexample: with TTL `0` a produced value *is* retained —
`_activate` assigns `self.cache` (the TTL is not `None`) and starts no
expiry timer (the TTL is not `> 0`), so the second `get()` is answered
from the cache and the producer is never invoked again. -/
theorem ttl_zero_second_get_cached :
    ((((DeferredCache.init (α := Nat) (some 0)).register_deferred 0).1.activate
        (Except.ok 42 : Except Unit Nat)).1.register_deferred 1).2 = some 42 ∧
    ((((DeferredCache.init (α := Nat) (some 0)).register_deferred 0).1.activate
        (Except.ok 42 : Except Unit Nat)).1.register_deferred 1).1.producer_calls = 1 := by
  refine ⟨by decide, by decide⟩

/-- C4 (amended): with TTL `0` a successfully produced value is retained
forever (until an explicit `clear`): `_activate` caches it, sets no
auto-clear timer, and every later `get()`/`register_deferred()` returns
it immediately without invoking the producer. -/
theorem ttl_zero_retains_forever {α β : Type} (s : DeferredCache α) (v : α) (id : Nat)
    (h : s.cache_ttl = some 0) :
    (s.activate (Except.ok v : Except β α)).1.cache = some v ∧
    (s.activate (Except.ok v : Except β α)).1.cache_clear_timer = s.cache_clear_timer ∧
    ((s.activate (Except.ok v : Except β α)).1.register_deferred id).2 = some v ∧
    ((s.activate (Except.ok v : Except β α)).1.register_deferred id).1.producer_calls =
      s.producer_calls := by
  simp [DeferredCache.activate, DeferredCache.register_deferred, h]

/-- Witness for `ttl_zero_retains_forever` on a fresh TTL-`0` cache. -/
theorem ttl_zero_retains_forever_witness :
    (DeferredCache.init (α := Nat) (some 0)).cache_ttl = some 0 ∧
    (((DeferredCache.init (α := Nat) (some 0)).activate
        (Except.ok 3 : Except Unit Nat)).1.register_deferred 0).2 = some 3 :=
  ⟨rfl, (ttl_zero_retains_forever _ 3 0 rfl).2.2.1⟩

/-! ## Concrete scenarios over the container -/

/-- A `Ready` adapter for folder path `"shares"` believing the folder id
is 7, with empty caches. -/
def readyAdapter : SkyDriveContainer :=
  { folder_path := "shares", folder_id := some 7, folder_name := "shares" }

/-- Remote on which the shares folder has been deleted out-of-band: no
folder exists at all. -/
def folderGoneRemote : Remote := { nextId := 8 }

/-- As `folderGoneRemote`, but every `put` fails with 410 GONE. -/
def folderGoneBrokenRemote : Remote := { nextId := 8, putFails := true }

/-- Remote on which the path `"shares"` resolves to folder id 7 and no
object is stored. -/
def sharesRemote : Remote := { folders := [(0, "shares", 7)], nextId := 8 }

/-- A `Ready` adapter whose `chunk_idmap` maps `"k"` to remote id 9. -/
def idmapHitAdapter : SkyDriveContainer :=
  { folder_path := "shares", folder_id := some 7, folder_name := "shares",
    chunk_idmap := [("k", 9)] }

/-- Remote with the shares folder (id 7) holding one file
(id 9, remote name `"k"`). -/
def listingRemote : Remote :=
  { folders := [(0, "shares", 7)],
    files := [(7, { id := 9, name := "k", updated_time := "u", size := 3 })],
    nextId := 10 }

/-- A `Ready` adapter whose persisted folder id (5) differs from what
the path resolves to. -/
def drift5Adapter : SkyDriveContainer :=
  { folder_path := "shares", folder_id := some 5, folder_name := "shares" }

/-- C7: on a `Ready` adapter whose folder was deleted out-of-band,
`put_object(K, data)` hits the internal 404, recreates the folder,
retries once and succeeds: the caller sees a success and the remote log
records exactly one `mkdir` and two `put` attempts (for any object name
and data). -/
theorem put_object_recovers_after_folder_loss (object_name data : String) :
    (put_object object_name data readyAdapter folderGoneRemote).1 = .ok () ∧
    (put_object object_name data readyAdapter folderGoneRemote).2.2.log.countP
      isMkdirOp = 1 ∧
    (put_object object_name data readyAdapter folderGoneRemote).2.2.log.countP
      isPutOp = 2 ∧
    (put_object object_name data readyAdapter folderGoneRemote).2.2.log =
      [COp.put (encodeName object_name) (some 7), COp.resolve_path "shares",
       COp.mkdir "shares" 0, COp.put (encodeName object_name) (some 8)] :=
  ⟨rfl, rfl, rfl, rfl⟩

/-- C5, counterexample: `get_object` is *not* wrapped by the recovery
decorator.  With the name resolved from the idmap and the remote call
failing 404 (recovery, had it been attempted, would have succeeded: the
folder exists), the caller receives the raw 404 after a single remote
`get` — no listing-cache invalidation, no folder bootstrap, no retry. -/
theorem get_object_404_propagates_unwrapped :
    (get_object "k" idmapHitAdapter sharesRemote).1 =
      .error (.protocolError 404) ∧
    (get_object "k" idmapHitAdapter sharesRemote).2.2.log = [COp.get 9] :=
  ⟨rfl, rfl⟩

/-- C5 (amended): only `list_objects` and `put_object` are wrapped by
the `create_missing_folders` recovery decorator; `create`, `delete`,
`get_object`, `head_object` and `delete_object` are not.  For a wrapped
operation the decorator behaves as claimed — shown for `put_object`
under a persistently failing remote `put` (410 GONE): the listing cache
is invalidated, the folder bootstrapped (one `mkdir`), the operation
retried exactly once, and the second same-class failure propagates (two
`put` attempts in total).  For an unwrapped operation a 404 propagates
directly — shown for `head_object`: one remote `info` call, no
bootstrap, no retry. -/
theorem recovery_decorator_only_on_list_and_put :
    (put_object "k" "data" readyAdapter folderGoneBrokenRemote).1 =
      .error (.protocolError 410) ∧
    (put_object "k" "data" readyAdapter folderGoneBrokenRemote).2.2.log.countP
      isPutOp = 2 ∧
    (put_object "k" "data" readyAdapter folderGoneBrokenRemote).2.2.log.countP
      isMkdirOp = 1 ∧
    (head_object "k" idmapHitAdapter sharesRemote).1 =
      .error (.protocolError 404) ∧
    (head_object "k" idmapHitAdapter sharesRemote).2.2.log = [COp.info 9] :=
  ⟨rfl, rfl, rfl, rfl, rfl⟩

/-- C6: evaluating `create()` at the failing input — the configured path
resolves (the folder exists remotely with id 7, the adapter believes 5).
The drift is repaired (`folder_id` updated, the persisted-id callback
fired exactly once with 7), but `create()` then *fails* with a
`TypeError`: the second `addCallback(_match_folder_id)` of
`create_shares_folder` receives the `None` returned by the first one and
subscripts it. -/
theorem create_resolve_success_raises_type_error :
    (create drift5Adapter sharesRemote).1 = .error .typeError ∧
    (create drift5Adapter sharesRemote).2.1.folder_id = some 7 ∧
    (create drift5Adapter sharesRemote).2.1.folder_id_updates = [7] ∧
    (create drift5Adapter sharesRemote).2.2.log = [COp.resolve_path "shares"] :=
  ⟨rfl, rfl, rfl, rfl⟩

/-- C9: a configuration giving a (truthy) folder id and no folder path
passes the exactly-one validation of `configure_skydrive_container`, yet
constructing `SkyDriveContainer` raises: `__init__` runs
`normpath(folder_path)` unconditionally and `folder_path` is `None`.
Consequently an adapter instance is only ever constructed when a folder
path is configured. -/
theorem folder_id_only_config_cannot_construct (fid priv : Option String)
    (h : pyTruthy fid = true) :
    configure_folder fid none priv = ConfigOutcome.proceed fid none false ∧
    SkyDriveContainer_init fid none = .error PyErr.attributeError ∧
    ∀ (fid2 fp : Option String) (st : ContainerInit),
      SkyDriveContainer_init fid2 fp = .ok st → fp ≠ none := by
  refine ⟨?_, rfl, ?_⟩
  · unfold configure_folder
    rw [h]
    simp [pyTruthy]
  · intro fid2 fp st hok hnone
    subst hnone
    simp [SkyDriveContainer_init, normpath] at hok

/-- Witness for `folder_id_only_config_cannot_construct` with folder id
`"folder.123"`. -/
theorem folder_id_only_config_cannot_construct_witness :
    pyTruthy (some "folder.123") = true ∧
    SkyDriveContainer_init (some "folder.123") none =
      .error PyErr.attributeError :=
  ⟨rfl, (folder_id_only_config_cannot_construct (some "folder.123") none rfl).2.1⟩

/-! ## Self-healing listing (C8) -/

/-- `Remote.get` only appends its call to the log. -/
theorem Remote.get_snd (r : Remote) (oid : Nat) :
    (r.get oid).2 = { r with log := r.log ++ [COp.get oid] } := by
  unfold Remote.get
  cases h : r.blobs.find? (fun e => e.1 = oid) <;> simp [h]

/-- C8: once a `list_objects` call has come back with logical name `K`
recorded against remote id `R` (the map repopulation covers *every*
observed entry, whatever `p` was queried), a subsequent
`get_object K` performs no directory listing at all: it resolves `K`
from `chunk_idmap` directly to `R` and issues exactly one remote call,
`get R`. -/
theorem get_after_list_resolves_directly (a0 : SkyDriveContainer) (r0 : Remote)
    (p K : String) (R : Nat) (out : SkyDriveListing) (a1 : SkyDriveContainer)
    (r1 : Remote)
    (hls : list_objects p a0 r0 = (.ok out, a1, r1))
    (hK : idmapGet a1.chunk_idmap K = some R) :
    (get_object K a1 r1).2.2.log = r1.log ++ [COp.get R] ∧
    (get_object K a1 r1).2.2.log.countP isListdirOp = r1.log.countP isListdirOp ∧
    (get_object K a1 r1).1 = (r1.get R).1 ∧
    (get_object K a1 r1).2.1 = a1 := by
  have hgoal : get_object K a1 r1 = ((r1.get R).1, a1, (r1.get R).2) := by
    unfold get_object resolve_object_name
    rw [hK]
  rw [hgoal, Remote.get_snd]
  refine ⟨rfl, ?_, rfl, rfl⟩
  simp [List.countP_append, isListdirOp, List.countP_cons]

/-- Witness for `get_after_list_resolves_directly`: list with prefix
`"z"` (which `"k"` does not match), then get `"k"`. -/
theorem get_after_list_resolves_directly_witness :
    idmapGet (list_objects "z" readyAdapter listingRemote).2.1.chunk_idmap "k" =
      some 9 ∧
    (get_object "k" (list_objects "z" readyAdapter listingRemote).2.1
        (list_objects "z" readyAdapter listingRemote).2.2).2.2.log =
      (list_objects "z" readyAdapter listingRemote).2.2.log ++ [COp.get 9] :=
  ⟨rfl,
   (get_after_list_resolves_directly readyAdapter listingRemote "z" "k" 9
      _ _ _ rfl rfl).1⟩

/-! ## Wholesale idmap reset by list_objects (C10) -/

theorem DeferredCache.clear_ttl {α : Type} (s : DeferredCache α) :
    s.clear.cache_ttl = s.cache_ttl := rfl

theorem DeferredCache.refresh_ttl {α : Type} (s : DeferredCache α) :
    s.refresh.cache_ttl = s.cache_ttl := by
  unfold DeferredCache.refresh
  by_cases h : s.deferred <;> simp [h, DeferredCache.clear]

theorem DeferredCache.activate_ttl {α β : Type} (s : DeferredCache α)
    (res : Except β α) :
    (s.activate res).1.cache_ttl = s.cache_ttl := by
  unfold DeferredCache.activate
  cases res with
  | error e => rfl
  | ok v =>
      cases h : s.cache_ttl with
      | none => rfl
      | some t => by_cases ht : 0 < t <;> simp [ht]

/-- A successful producer completion populates the slot whenever the TTL
is a number. -/
theorem DeferredCache.activate_ok_cache {α β : Type} (s : DeferredCache α)
    (v : α) (t : Nat) (h : s.cache_ttl = some t) :
    ((s.activate (Except.ok v : Except β α)).1).cache = some v := by
  unfold DeferredCache.activate
  by_cases ht : 0 < t <;> simp [h, ht]

theorem idmapGet_idmapSet (m : List (String × Nat)) (k k' : String) (v : Nat) :
    idmapGet (idmapSet m k' v) k = if k' = k then some v else idmapGet m k := by
  induction m with
  | nil => simp [idmapSet, idmapGet]
  | cons e rest ih =>
      rcases e with ⟨k0, v0⟩
      by_cases h0 : k0 = k' <;> by_cases h2 : k' = k <;>
        simp_all [idmapSet, idmapGet]

/-- Names absent from the listing are absent from the repopulated map. -/
theorem idmapGet_fold_absent (k : String) :
    ∀ (lst : List FileInfo) (m : List (String × Nat)),
      (∀ inf ∈ lst, decodeName inf.name ≠ k) → idmapGet m k = none →
      idmapGet (lst.foldl (fun m inf => idmapSet m (decodeName inf.name) inf.id) m) k
        = none := by
  intro lst
  induction lst with
  | nil => intro m _ hm; simpa using hm
  | cons inf rest ih =>
      intro m h hm
      simp only [List.foldl_cons]
      refine ih _ (fun x hx => h x (by simp [hx])) ?_
      rw [idmapGet_idmapSet]
      have hne : decodeName inf.name ≠ k := h inf (by simp)
      simp [hne, hm]

/-- The map component of the `_filter_objects` fold does not depend on
the contents accumulator or the queried p. -/
theorem listObjectsFold_fst (p : String) :
    ∀ (lst : List FileInfo) (m : List (String × Nat)) (c : List SkyDriveItem),
      (lst.foldl
        (fun (st : List (String × Nat) × List SkyDriveItem) inf =>
          let key := decodeName inf.name
          let m' := idmapSet st.1 key inf.id
          if pyStartsWith key p then
            (m', st.2 ++ [SkyDriveItem.from_info inf (some key)])
          else (m', st.2))
        (m, c)).1
      = lst.foldl (fun m inf => idmapSet m (decodeName inf.name) inf.id) m := by
  intro lst
  induction lst with
  | nil => intro m c; rfl
  | cons inf rest ih =>
      intro m c
      simp only [List.foldl_cons]
      by_cases h : pyStartsWith (decodeName inf.name) p <;> simp [h, ih]

/-- A successful `listFetch` leaves the fetched listing in the cache
slot (the TTL of `_list_cache` is the number 120, so `_activate`
retains  the result; a fetch served from the cache leaves it there). -/
theorem listFetch_ok_cache (a : SkyDriveContainer) (r : Remote)
    (lst : List FileInfo) (a1 : SkyDriveContainer) (r1 : Remote)
    (httl : a.list_cache.cache_ttl = some 120)
    (h : listFetch a r = (.ok lst, a1, r1)) :
    a1.list_cache.cache = some lst := by
  unfold listFetch at h
  cases hc : a.list_cache.cache with
  | some l =>
      rw [hc] at h
      injection h with h1 h23
      injection h23 with h2 h3
      injection h1 with h1
      rw [← h2, hc, h1]
  | none =>
      rw [hc] at h
      injection h with h1 h23
      injection h23 with h2 h3
      rw [← h2]
      have hres : (r.listdir a.folder_id).1 = Except.ok lst := h1
      show ((a.list_cache.refresh.activate (r.listdir a.folder_id).1).1).cache = some lst
      rw [hres]
      exact DeferredCache.activate_ok_cache _ lst 120
        ((a.list_cache.refresh_ttl).trans httl)

/-- `listFetch` never changes the TTL of the listing cache. -/
theorem listFetch_ttl (a : SkyDriveContainer) (r : Remote) :
    (listFetch a r).2.1.list_cache.cache_ttl = a.list_cache.cache_ttl := by
  unfold listFetch
  cases hc : a.list_cache.cache with
  | some l => rfl
  | none =>
      show ((a.list_cache.refresh.activate (r.listdir a.folder_id).1).1).cache_ttl =
        a.list_cache.cache_ttl
      rw [DeferredCache.activate_ttl, DeferredCache.refresh_ttl]

/-- A successful `_match_folder_id` only rewrites the folder id and the
update log. -/
theorem matchFolderId_ok_state (fid : Option Nat) (a : SkyDriveContainer)
    (v : Option FileInfo) (a1 : SkyDriveContainer) (v1 : Option FileInfo)
    (h : matchFolderId fid a v = .ok (a1, v1)) :
    a1.list_cache = a.list_cache ∧ a1.chunk_idmap = a.chunk_idmap := by
  cases v with
  | none => simp [matchFolderId] at h
  | some inf =>
      unfold matchFolderId at h
      dsimp only at h
      split at h <;>
        · injection h with h
          injection h with h2 h3
          subst h2
          exact ⟨rfl, rfl⟩

/-- Folder bootstrap never touches the listing cache (it only mutates
`folder_id`, the update log and — on a `DoesNotExists` — the idmap). -/
theorem create_shares_folder_list_cache (a : SkyDriveContainer) (r : Remote)
    (fp : String) (fid : Option Nat) :
    (create_shares_folder a r fp fid).2.1.list_cache = a.list_cache := by
  unfold create_shares_folder
  rcases hrp : r.resolve_path fp with ⟨res, r1⟩
  dsimp only
  cases res with
  | ok inf =>
      dsimp only
      rcases hm1 : matchFolderId fid a (some inf) with e1 | ⟨a2, v2⟩
      · rfl
      · dsimp only
        have hm1l := (matchFolderId_ok_state fid a (some inf) a2 v2 hm1).1
        rcases hm2 : matchFolderId fid a2 v2 with e2 | ⟨a3, v3⟩
        · exact hm1l
        · exact ((matchFolderId_ok_state fid a2 v2 a3 v3 hm2).1).trans hm1l
  | error e =>
      try dsimp only
      cases e with
      | doesNotExists parentId slugs =>
          try dsimp only
          cases slugs with
          | nil => rfl
          | cons s0 rest =>
              dsimp only
              split
              · rfl
              · next infN heq =>
                  rcases hm : matchFolderId fid { a with chunk_idmap := [] }
                      (some infN) with e2 | ⟨a3, v3⟩
                  · rfl
                  · exact (matchFolderId_ok_state _ _ _ _ _ hm).1
      | protocolError c => rfl
      | cloudError c => rfl
      | keyError => rfl
      | typeError => rfl
      | indexError => rfl

/-- `create()` never touches the listing cache. -/
theorem create_list_cache (a : SkyDriveContainer) (r : Remote) :
    (create a r).2.1.list_cache = a.list_cache :=
  create_shares_folder_list_cache a r a.folder_path a.folder_id

/-- A successful `list_objects` body leaves the observed listing in the
cache slot and the idmap rebuilt from it alone. -/
theorem list_objects_body_ok (p : String) (a : SkyDriveContainer) (r : Remote)
    (out : SkyDriveListing) (a1 : SkyDriveContainer) (r1 : Remote)
    (httl : a.list_cache.cache_ttl = some 120)
    (h : list_objects_body p a r = (.ok out, a1, r1)) :
    ∃ lst, a1.list_cache.cache = some lst ∧ a1.chunk_idmap = idmapOfListing lst := by
  unfold list_objects_body at h
  rcases hf : listFetch a r with ⟨res, a2, r2⟩
  rw [hf] at h
  cases res with
  | error e => exact absurd h (by simp)
  | ok lst =>
      refine ⟨lst, ?_, ?_⟩
      · injection h with h1 h23
        injection h23 with h2 h3
        rw [← h2]
        exact listFetch_ok_cache a r lst a2 r2 httl hf
      · injection h with h1 h23
        injection h23 with h2 h3
        rw [← h2]
        exact listObjectsFold_fst p lst [] []

/-- The `list_objects` body never changes the TTL of the listing cache. -/
theorem list_objects_body_ttl (p : String) (a : SkyDriveContainer) (r : Remote) :
    (list_objects_body p a r).2.1.list_cache.cache_ttl =
      a.list_cache.cache_ttl := by
  unfold list_objects_body
  rcases hf : listFetch a r with ⟨res, a2, r2⟩
  have h2 : a2.list_cache.cache_ttl = a.list_cache.cache_ttl := by
    have := listFetch_ttl a r
    rw [hf] at this
    exact this
  cases res with
  | error e => exact h2
  | ok lst => exact h2

/-- C10: a successful `list_objects()` call resets the persistent
name→id map wholesale before repopulating it: on return the map is
exactly the one rebuilt from the observed directory listing (an upsert
per entry, in listing order, starting from an empty store — the listing
itself sits in the cache slot on return), and in particular every
previously stored mapping for a name absent from that listing is gone. -/
theorem list_objects_resets_idmap (p : String) (a0 : SkyDriveContainer)
    (r0 : Remote) (out : SkyDriveListing) (a1 : SkyDriveContainer) (r1 : Remote)
    (httl : a0.list_cache.cache_ttl = some 120)
    (h : list_objects p a0 r0 = (.ok out, a1, r1)) :
    ∃ lst, a1.list_cache.cache = some lst ∧
      a1.chunk_idmap = idmapOfListing lst ∧
      ∀ k, (∀ inf ∈ lst, decodeName inf.name ≠ k) →
        idmapGet a1.chunk_idmap k = none := by
  have main : ∃ lst, a1.list_cache.cache = some lst ∧
      a1.chunk_idmap = idmapOfListing lst := by
    unfold list_objects create_missing_folders at h
    cases hfid : a0.folder_id with
    | none =>
        rw [hfid] at h
        rcases hc : create a0 r0 with ⟨cres, a2, r2⟩
        rw [hc] at h
        cases cres with
        | error e => exact absurd h (by simp)
        | ok v =>
            refine list_objects_body_ok p a2 r2 out a1 r1 ?_ h
            have h2 : a2.list_cache = a0.list_cache := by
              have := create_list_cache a0 r0
              rw [hc] at this
              exact this
            rw [h2, httl]
    | some fid =>
        rw [hfid] at h
        rcases hb : list_objects_body p a0 r0 with ⟨res, a2, r2⟩
        rw [hb] at h
        cases res with
        | ok v =>
            injection h with h1 h23
            injection h23 with h2 h3
            injection h1 with h1
            subst h1
            rw [← h2]
            obtain ⟨lst, hc1, hc2⟩ := list_objects_body_ok p a0 r0 v a2 r2 httl hb
            exact ⟨lst, hc1, hc2⟩
        | error e =>
            dsimp only at h
            split at h
            · rcases hc :
                  create { a2 with list_cache := a2.list_cache.clear } r2 with
                ⟨cres, a3, r3⟩
              rw [hc] at h
              cases cres with
              | error e2 => exact absurd h (by simp)
              | ok v2 =>
                  refine list_objects_body_ok p a3 r3 out a1 r1 ?_ h
                  have h3 : a3.list_cache = a2.list_cache.clear := by
                    have := create_list_cache
                      { a2 with list_cache := a2.list_cache.clear } r2
                    rw [hc] at this
                    exact this
                  have h4 : a2.list_cache.cache_ttl = some 120 := by
                    have := list_objects_body_ttl p a0 r0
                    rw [hb] at this
                    rw [this, httl]
                  rw [h3, DeferredCache.clear_ttl, h4]
            · exact absurd h (by simp)
  obtain ⟨lst, hcache, hmap⟩ := main
  refine ⟨lst, hcache, hmap, ?_⟩
  intro k hk
  rw [hmap]
  exact idmapGet_fold_absent k lst [] hk rfl

/-- Witness for `list_objects_resets_idmap` on the concrete listing
remote. -/
theorem list_objects_resets_idmap_witness :
    readyAdapter.list_cache.cache_ttl = some 120 ∧
    ∃ lst,
      (list_objects "z" readyAdapter listingRemote).2.1.list_cache.cache =
        some lst ∧
      (list_objects "z" readyAdapter listingRemote).2.1.chunk_idmap =
        idmapOfListing lst ∧
      ∀ k, (∀ inf ∈ lst, decodeName inf.name ≠ k) →
        idmapGet (list_objects "z" readyAdapter listingRemote).2.1.chunk_idmap k
          = none :=
  ⟨rfl, list_objects_resets_idmap "z" readyAdapter listingRemote _ _ _ rfl rfl⟩

end PubCloud
